import Mathlib

/-!
# Verification of the lxid parallel-distribution pipeline

Shallow embedding of the ZeroMQ-based task-distribution pipeline of the
`lxid` repository:

* `src/lxid/parallel.py` — `Ventilator` (dispatcher) and `Sink` (collector);
* `src/bin/convert_events.py` — `run_worker` (worker loop);
* `src/lxid/utils.py` — `convert_events_parallel` (orchestrator).

Stateful process bodies are embedded as functions from their inputs
(the messages each blocking receive would deliver, in arrival order) to the
trace of observable channel actions they perform.  Blocking on a message
that never arrives is modelled by `Option` (`none` = blocks) or by an
explicit `pending` outcome.
-/

namespace Lxid

/-- A Python object as seen by the distribution layer: the layer never looks
inside a payload except to test `o == None` in the orchestrator's loop, so we
record only the outcome of that test and an opaque tag distinguishing
objects. -/
structure PyObj where
  eqNone : Bool
  tag : Nat
  deriving DecidableEq, Repr

/-- The Python literal `None`: `None == None` holds. -/
def pyNone : PyObj := { eqNone := true, tag := 0 }

/-- `lxid.dataset.Cut` is opaque to the distribution layer (it is carried
inside each task and only ever handed to `events_from_ds`), so it is
embedded as an opaque tag. -/
structure Cut where
  tag : Nat
  deriving DecidableEq, Repr

/-- A task as built by `convert_events_parallel`: the tuple
`(filename, cut)`. -/
structure Task where
  filename : String
  cut : Cut
  deriving DecidableEq, Repr

/-- Exceptions of the embedded Python fragments. -/
inductive PyError where
  | nameError (name : String)
  | taskError (msg : String)
  deriving DecidableEq, Repr

/-! ## Ventilator (`src/lxid/parallel.py`, `Ventilator.run`) -/

/-- Observable actions of `Ventilator.run`. -/
inductive VentEvent where
  | sleep (seconds : Nat)
  | sendTask (t : Task)
  deriving DecidableEq, Repr

/-- The `for task in self.tasks: sender.send_pyobj(task)` loop. -/
def ventSendLoop : List Task → List VentEvent
  | [] => []
  | t :: ts => VentEvent.sendTask t :: ventSendLoop ts

/-- `Ventilator.run`: sleep `join_delay` seconds, send every task in order,
sleep 1 second, terminate. -/
def ventilatorRun (tasks : List Task) (join_delay : Nat) : List VentEvent :=
  VentEvent.sleep join_delay :: (ventSendLoop tasks ++ [VentEvent.sleep 1])

/-- The default of the `join_delay` parameter of `Ventilator.__init__`. -/
def ventilator_default_join_delay : Nat := 6

/-- Projection extracting the task of a send event. -/
def sentTask : VentEvent → Option Task
  | VentEvent.sendTask t => some t
  | VentEvent.sleep _ => none

/-! ## Sink (`src/lxid/parallel.py`, `Sink.run`) -/

/-- Observable channel actions of `Sink.run`.  `recvResult` is a receive on
the result-relay pull socket, `sendData` a forward to the collection push
socket, `sendKill` the publish of the string `KILL` on the control
socket, `sendSentinel` the `send_pyobj(None)` on the collection socket. -/
inductive SinkEvent where
  | recvResult (r : PyObj)
  | sendData (r : PyObj)
  | sendKill
  | sendSentinel
  deriving DecidableEq, Repr

/-- The `for task_nbr in range(self.task_count)` loop of `Sink.run`: each
iteration blocks on `receiver.recv_pyobj()` and forwards the object with
`sink_data.send_pyobj(s)`.  `incoming` lists the objects the result-relay
socket would deliver, in arrival order.  Returns the trace of actions
performed, paired with whether the loop ran to completion (`false` means
fewer than `task_count` objects ever arrive, so the loop blocks forever in
`recv_pyobj` after the partial trace). -/
def sinkLoop : Nat → List PyObj → List SinkEvent × Bool
  | 0, _ => ([], true)
  | _ + 1, [] => ([], false)
  | n + 1, r :: rs =>
      let next := sinkLoop n rs
      (SinkEvent.recvResult r :: SinkEvent.sendData r :: next.1, next.2)

/-- `Sink.run` for `task_count` expected results: run the receive loop; only
if it completes, `controller.send('KILL')` and then
`sink_data.send_pyobj(None)`. -/
def sinkRun (task_count : Nat) (incoming : List PyObj) :
    List SinkEvent × Bool :=
  let loop := sinkLoop task_count incoming
  if loop.2 then (loop.1 ++ [SinkEvent.sendKill, SinkEvent.sendSentinel], true)
  else (loop.1, false)

/-- The default of the `output_address` parameter of `Sink.__init__`. -/
def sink_default_output_address : String := "ipc:///tmp/lxid0"

/-- The state `Sink.__init__` stores. -/
structure SinkCfg where
  task_count : Nat
  output_address : String
  deriving DecidableEq, Repr

/-- `Sink.__init__`. -/
def Sink_init (task_count : Nat) (output_address : String) : SinkCfg :=
  { task_count := task_count, output_address := output_address }

/-- Whether a sink event is a receive on the result-relay socket. -/
def isRecv : SinkEvent → Bool
  | SinkEvent.recvResult _ => true
  | _ => false

/-! ## Worker (`src/bin/convert_events.py`, `run_worker`) -/

/-- The connection-establishment phase of `run_worker`.  The source is a
`while True` loop whose `try` block connects the pull, push and subscribe
sockets and then `break`s; its `except Exception` handler executes
`time.sleep(5)` — but `convert_events.py` imports only `socket`, `sys`,
`zmq`, `events_from_ds` and `Cut`, never `time`, so the handler itself
raises `NameError: name 'time' is not defined`, which nothing catches and
which therefore propagates out of `run_worker`.  The argument is whether
the first connection attempt succeeds. -/
def run_worker_connect (attemptSucceeds : Bool) : Except PyError Unit :=
  if attemptSucceeds then Except.ok ()
  else Except.error (PyError.nameError "time")

/-- One round of the worker's poll loop: `poller.poll()` returns a readiness
flag for each of the two registered sockets; when the receiver is ready,
`task` is the object `receiver.recv_pyobj()` would deliver; when the
controller is ready, `ctrlPayload` is the pending control message (which
the source never receives or inspects — it only `break`s). -/
structure Round where
  recvReady : Bool
  task : Task
  ctrlReady : Bool
  ctrlPayload : String
  deriving DecidableEq, Repr

/-- Observable actions of the worker's processing loop. -/
inductive WorkerEvent where
  | recvTask (t : Task)
  | sendResult (r : PyObj)
  | exitOnControl
  deriving DecidableEq, Repr

/-- How a run of the worker loop over the supplied poll rounds ends:
`exited` via the control break, `pending` because the supplied rounds ran
out while the loop was still polling, or `raised` because
`events_from_ds` raised. -/
inductive LoopOutcome where
  | exited
  | pending
  | raised (e : PyError)
  deriving DecidableEq, Repr

/-- The `while True` poll loop of `run_worker`.  `f` embeds
`events_from_ds` (the task-processing function): it may fail.  Each round
first services the receiver if ready — recv the task, apply `f`, push the
result — and then checks the controller, breaking if it is ready.  An
exception from `f` propagates immediately: no result is pushed and no
further round runs. -/
def run_worker_loop (f : String → Cut → Except PyError PyObj) :
    List Round → List WorkerEvent × LoopOutcome
  | [] => ([], LoopOutcome.pending)
  | rd :: rest =>
      if rd.recvReady then
        match f rd.task.filename rd.task.cut with
        | Except.error e => ([WorkerEvent.recvTask rd.task], LoopOutcome.raised e)
        | Except.ok r =>
            if rd.ctrlReady then
              ([WorkerEvent.recvTask rd.task, WorkerEvent.sendResult r,
                WorkerEvent.exitOnControl], LoopOutcome.exited)
            else
              let next := run_worker_loop f rest
              (WorkerEvent.recvTask rd.task :: WorkerEvent.sendResult r :: next.1,
               next.2)
      else
        if rd.ctrlReady then ([WorkerEvent.exitOnControl], LoopOutcome.exited)
        else run_worker_loop f rest

/-! ## Orchestrator (`src/lxid/utils.py`, `convert_events_parallel`) -/

/-- The collection address hard-coded in `convert_events_parallel`:
`ipc_address = 'ipc:///tmp/lxid0'`. -/
def ipc_address : String := "ipc:///tmp/lxid0"

/-- The address `convert_events_parallel` binds its collection pull socket
to, as a function of the run's arguments (`files`, `cut`): the source
always uses the literal `ipc_address`. -/
def orchestrator_bind_address (files : List String) (cut : Cut) : String :=
  ipc_address

/-- `tasks = [(filename, cut) for filename in files]`. -/
def orchestrator_tasks (files : List String) (cut : Cut) : List Task :=
  files.map (fun filename => { filename := filename, cut := cut })

/-- The `Sink` the orchestrator constructs:
`Sink(len(tasks), output_address=ipc_address)`. -/
def orchestrator_sink (files : List String) (cut : Cut) : SinkCfg :=
  Sink_init (orchestrator_tasks files cut).length
    (orchestrator_bind_address files cut)

/-- The `while True` read loop of `convert_events_parallel`: receive an
object from the collection socket, break when `o == None`, otherwise
`callback(o)` and continue.  Returns the objects passed to the callback, in
arrival order, paired with whether the sentinel test ever fired (`false`
means the supplied arrivals ran out with the loop still blocked in
`recv_pyobj`). -/
def collectLoop : List PyObj → List PyObj × Bool
  | [] => ([], false)
  | o :: rest =>
      if o.eqNone then ([], true)
      else
        let next := collectLoop rest
        (o :: next.1, next.2)

/-- The result-consumption phase of `convert_events_parallel`.
`hasCallback` is whether the caller supplied `callback`; when it did not,
the source sets `results = []` and `callback = results.append`, so the
callback invocations are exactly the accumulated list.  Returns `none` when
the loop would block forever (sentinel never arrives); otherwise
`some (returnValue, callbackCalls)` where `returnValue` is the `results`
object the function returns (`None` when a callback was supplied). -/
def convert_events_parallel_collect (hasCallback : Bool)
    (incoming : List PyObj) : Option (Option (List PyObj) × List PyObj) :=
  match collectLoop incoming with
  | (_, false) => none
  | (acc, true) =>
      some (if hasCallback then none else some acc, acc)

/-! ## Helper lemmas -/

/-- The per-result trace fragment of the sink loop. -/
def sinkFwd (r : PyObj) : List SinkEvent :=
  [SinkEvent.recvResult r, SinkEvent.sendData r]

lemma sinkLoop_complete (n : Nat) (rs : List PyObj) (h : n ≤ rs.length) :
    sinkLoop n rs = ((rs.take n).flatMap sinkFwd, true) := by
  induction n generalizing rs with
  | zero => simp [sinkLoop]
  | succ m ih =>
      cases rs with
      | nil => simp at h
      | cons r rs' =>
          have h' : m ≤ rs'.length := Nat.le_of_succ_le_succ (by simpa using h)
          simp [sinkLoop, ih rs' h', sinkFwd]

lemma sinkLoop_incomplete (n : Nat) (rs : List PyObj) (h : rs.length < n) :
    sinkLoop n rs = (rs.flatMap sinkFwd, false) := by
  induction rs generalizing n with
  | nil =>
      cases n with
      | zero => simp at h
      | succ m => simp [sinkLoop]
  | cons r rs' ih =>
      cases n with
      | zero => simp at h
      | succ m =>
          have h' : rs'.length < m := Nat.lt_of_succ_lt_succ (by simpa using h)
          simp [sinkLoop, ih m h', sinkFwd]

lemma sinkFwd_flatMap_countP (l : List PyObj) :
    ((l.flatMap sinkFwd).countP isRecv) = l.length := by
  induction l with
  | nil => simp
  | cons r l ih => simp [sinkFwd, List.countP_cons, isRecv, ih]

lemma sendKill_not_mem_flatMap (l : List PyObj) :
    SinkEvent.sendKill ∉ l.flatMap sinkFwd := by
  induction l with
  | nil => simp
  | cons r l ih => simp [sinkFwd, ih]

lemma sendSentinel_not_mem_flatMap (l : List PyObj) :
    SinkEvent.sendSentinel ∉ l.flatMap sinkFwd := by
  induction l with
  | nil => simp
  | cons r l ih => simp [sinkFwd, ih]

lemma collectLoop_eq (incoming : List PyObj) :
    collectLoop incoming =
      (incoming.takeWhile (fun o => ! o.eqNone),
       incoming.any (fun o => o.eqNone)) := by
  induction incoming with
  | nil => simp [collectLoop]
  | cons o rest ih =>
      by_cases ho : o.eqNone = true
      · simp [collectLoop, ho, List.takeWhile_cons]
      · simp only [Bool.not_eq_true] at ho
        simp [collectLoop, ho, List.takeWhile_cons, ih]

/-! ## Claims -/

/-- C1: for `expected_count = n`, the Sink never publishes the cancellation
message before it has received exactly `n` results: when at least `n`
results arrive, its trace is a body of exactly `n` receives (and forwards)
containing no cancellation and no sentinel, followed by exactly one `KILL`
publish and then exactly one `None` sentinel, in that order; when fewer
than `n` results ever arrive, the loop never completes and neither the
cancellation nor the sentinel ever appears in the trace. -/
theorem sink_cancellation_order_C1 (n : Nat) (rs : List PyObj) :
    (n ≤ rs.length →
      ∃ body : List SinkEvent,
        sinkRun n rs =
          (body ++ [SinkEvent.sendKill, SinkEvent.sendSentinel], true) ∧
        body.countP isRecv = n ∧
        SinkEvent.sendKill ∉ body ∧
        SinkEvent.sendSentinel ∉ body) ∧
    (rs.length < n →
      (sinkRun n rs).2 = false ∧
      SinkEvent.sendKill ∉ (sinkRun n rs).1 ∧
      SinkEvent.sendSentinel ∉ (sinkRun n rs).1) := by
  constructor
  · intro h
    refine ⟨(rs.take n).flatMap sinkFwd, ?_, ?_, ?_, ?_⟩
    · simp [sinkRun, sinkLoop_complete n rs h]
    · rw [sinkFwd_flatMap_countP]
      simpa using Nat.min_eq_left h
    · exact sendKill_not_mem_flatMap _
    · exact sendSentinel_not_mem_flatMap _
  · intro h
    refine ⟨?_, ?_, ?_⟩
    · simp [sinkRun, sinkLoop_incomplete n rs h]
    · simpa [sinkRun, sinkLoop_incomplete n rs h] using
        sendKill_not_mem_flatMap rs
    · simpa [sinkRun, sinkLoop_incomplete n rs h] using
        sendSentinel_not_mem_flatMap rs

/-- Witness for C1 at `n = 1`: with one arriving result the trace is
receive/forward then `KILL` then sentinel; with an empty arrival stream the
loop stays incomplete and publishes nothing. -/
theorem sink_cancellation_order_C1_witness :
    (∃ body : List SinkEvent,
        sinkRun 1 [{ eqNone := false, tag := 5 }] =
          (body ++ [SinkEvent.sendKill, SinkEvent.sendSentinel], true) ∧
        body.countP isRecv = 1 ∧
        SinkEvent.sendKill ∉ body ∧
        SinkEvent.sendSentinel ∉ body) ∧
    ((sinkRun 1 ([] : List PyObj)).2 = false ∧
      SinkEvent.sendKill ∉ (sinkRun 1 ([] : List PyObj)).1 ∧
      SinkEvent.sendSentinel ∉ (sinkRun 1 ([] : List PyObj)).1) :=
  ⟨(sink_cancellation_order_C1 1 [{ eqNone := false, tag := 5 }]).1
      (by decide),
   (sink_cancellation_order_C1 1 []).2 (by decide)⟩

/-- C2: `Ventilator.run` first sleeps the warm-up interval (its first trace
event is the `join_delay` sleep, so nothing is sent before it), then sends
exactly the tasks of the task set, in order, once each, and its final
action is the one-second flush sleep after which it terminates. -/
theorem ventilator_dispatch_C2 (tasks : List Task) (join_delay : Nat) :
    (ventilatorRun tasks join_delay).head? =
      some (VentEvent.sleep join_delay) ∧
    (ventilatorRun tasks join_delay).filterMap sentTask = tasks ∧
    (ventilatorRun tasks join_delay).getLast? = some (VentEvent.sleep 1) := by
  refine ⟨rfl, ?_, ?_⟩
  · have hloop : ∀ ts : List Task, (ventSendLoop ts).filterMap sentTask = ts := by
      intro ts
      induction ts with
      | nil => simp [ventSendLoop]
      | cons t ts ih => simp [ventSendLoop, sentTask, ih]
    simp [ventilatorRun, sentTask, hloop]
  · show (VentEvent.sleep join_delay :: (ventSendLoop tasks ++
        [VentEvent.sleep 1])).getLast? = some (VentEvent.sleep 1)
    rw [← List.cons_append, List.getLast?_concat]

/-- C3: a failed connection attempt in `run_worker` is not retried with a
5-unit backoff: because `time` is never imported in `convert_events.py`,
the `except` handler itself raises `NameError: name 'time' is not
defined`, which propagates out of `run_worker`; only a first-attempt
success connects. -/
theorem run_worker_connect_C3 :
    run_worker_connect false = Except.error (PyError.nameError "time") ∧
    run_worker_connect true = Except.ok () :=
  ⟨rfl, rfl⟩

/-- C4: whenever a control message is pending in a poll round, the worker
loop ends in that round — its behaviour is identical for every control
payload (the payload is never received or inspected) and for every
continuation of the round list, and the loop never remains pending. -/
theorem run_worker_control_exit_C4 (f : String → Cut → Except PyError PyObj)
    (rd : Round) (rest : List Round) (h : rd.ctrlReady = true) :
    (∀ (p : String) (rest' : List Round),
        run_worker_loop f ({ rd with ctrlPayload := p } :: rest') =
          run_worker_loop f (rd :: rest)) ∧
    (run_worker_loop f (rd :: rest)).2 ≠ LoopOutcome.pending := by
  obtain ⟨rv, tk, cr, pl⟩ := rd
  simp only at h
  subst h
  constructor
  · intro p rest'
    cases rv with
    | false => simp [run_worker_loop]
    | true =>
        cases hf : f tk.filename tk.cut with
        | error e => simp [run_worker_loop, hf]
        | ok r => simp [run_worker_loop, hf]
  · cases rv with
    | false => simp [run_worker_loop]
    | true =>
        cases hf : f tk.filename tk.cut with
        | error e => simp [run_worker_loop, hf]
        | ok r => simp [run_worker_loop, hf]

/-- Witness for C4 at a concrete round whose control socket is ready. -/
theorem run_worker_control_exit_C4_witness :
    (run_worker_loop (fun _ _ => Except.ok pyNone)
      ([{ recvReady := false, task := { filename := "a", cut := { tag := 0 } },
          ctrlReady := true, ctrlPayload := "KILL" }] : List Round)).2 ≠
      LoopOutcome.pending :=
  (run_worker_control_exit_C4 (fun _ _ => Except.ok pyNone)
    { recvReady := false, task := { filename := "a", cut := { tag := 0 } },
      ctrlReady := true, ctrlPayload := "KILL" } [] rfl).2

/-- C5: with an empty file list the task set is empty, the Sink broadcasts
the cancellation and sends the sentinel without receiving anything (its
loop completes on any arrival stream, including the empty one), and the
orchestrator's collection loop, fed only the sentinel, completes without
blocking and returns the empty sequence. -/
theorem empty_taskset_C5 (cut : Cut) (rs : List PyObj) :
    orchestrator_tasks [] cut = [] ∧
    sinkRun (orchestrator_tasks [] cut).length rs =
      ([SinkEvent.sendKill, SinkEvent.sendSentinel], true) ∧
    convert_events_parallel_collect false [pyNone] = some (some [], []) := by
  refine ⟨rfl, ?_, rfl⟩
  simp [orchestrator_tasks, sinkRun, sinkLoop]

/-- C6: the orchestrator consumes collection-channel objects up to the first
one comparing equal to `None`, in arrival order; without a user callback it
returns that accumulated sequence, and with a user callback it passes the
same sequence to the callback and returns `None`. -/
theorem orchestrator_collect_C6 (incoming : List PyObj)
    (h : incoming.any (fun o => o.eqNone) = true) :
    convert_events_parallel_collect false incoming =
      some (some (incoming.takeWhile (fun o => ! o.eqNone)),
            incoming.takeWhile (fun o => ! o.eqNone)) ∧
    convert_events_parallel_collect true incoming =
      some (none, incoming.takeWhile (fun o => ! o.eqNone)) := by
  constructor <;>
    simp [convert_events_parallel_collect, collectLoop_eq, h]

/-- Witness for C6 on the arrival stream `[result, sentinel]`. -/
theorem orchestrator_collect_C6_witness :
    ([{ eqNone := false, tag := 1 }, pyNone] : List PyObj).any
        (fun o => o.eqNone) = true ∧
    (convert_events_parallel_collect false [{ eqNone := false, tag := 1 }, pyNone] =
        some (some (([{ eqNone := false, tag := 1 }, pyNone] : List PyObj).takeWhile
                (fun o => ! o.eqNone)),
              ([{ eqNone := false, tag := 1 }, pyNone] : List PyObj).takeWhile
                (fun o => ! o.eqNone)) ∧
      convert_events_parallel_collect true [{ eqNone := false, tag := 1 }, pyNone] =
        some (none, ([{ eqNone := false, tag := 1 }, pyNone] : List PyObj).takeWhile
                (fun o => ! o.eqNone))) :=
  ⟨by decide,
   orchestrator_collect_C6 [{ eqNone := false, tag := 1 }, pyNone] (by decide)⟩

/-- C7 counterexample: the address the orchestrator binds for collection
does not vary with the run — `convert_events_parallel` hard-codes
`ipc:///tmp/lxid0`, so two runs with different arguments use the same
address and no pair of runs can differ. -/
theorem orchestrator_address_fixed_C7_counterexample :
    orchestrator_bind_address ["run1.root"] { tag := 1 } =
      orchestrator_bind_address ["run2.root", "x.root"] { tag := 2 } ∧
    ¬ ∃ (files1 : List String) (cut1 : Cut) (files2 : List String) (cut2 : Cut),
        orchestrator_bind_address files1 cut1 ≠
          orchestrator_bind_address files2 cut2 :=
  ⟨rfl, fun ⟨_, _, _, _, hne⟩ => hne rfl⟩

/-- C7 as amended: the collection endpoint is the local interprocess path
`ipc:///tmp/lxid0`; the Sink's `output_address` parameter defaults to that
path, and the orchestrator explicitly passes the address it binds (together
with `expected_count = len(tasks)`) to the Sink it constructs — but the
address the orchestrator uses is the fixed constant `ipc:///tmp/lxid0` on
every run, with no override parameter. -/
theorem orchestrator_address_C7 (files : List String) (cut : Cut) :
    sink_default_output_address = "ipc:///tmp/lxid0" ∧
    orchestrator_bind_address files cut = "ipc:///tmp/lxid0" ∧
    (orchestrator_sink files cut).output_address =
      orchestrator_bind_address files cut ∧
    (orchestrator_sink files cut).task_count = files.length := by
  refine ⟨rfl, rfl, rfl, ?_⟩
  simp [orchestrator_sink, orchestrator_tasks, Sink_init]

/-- C8: when the receiver is ready and the task-processing function raises
on the received task, the worker loop's trace records the task receive and
nothing else — no result is pushed for that task, the remaining rounds are
never entered (no retry), and the exception propagates as the loop's
outcome. -/
theorem worker_task_failure_C8 (f : String → Cut → Except PyError PyObj)
    (rd : Round) (rest : List Round) (e : PyError)
    (h1 : rd.recvReady = true)
    (h2 : f rd.task.filename rd.task.cut = Except.error e) :
    run_worker_loop f (rd :: rest) =
      ([WorkerEvent.recvTask rd.task], LoopOutcome.raised e) ∧
    ∀ r : PyObj, WorkerEvent.sendResult r ∉ (run_worker_loop f (rd :: rest)).1 := by
  have hmain : run_worker_loop f (rd :: rest) =
      ([WorkerEvent.recvTask rd.task], LoopOutcome.raised e) := by
    simp [run_worker_loop, h1, h2]
  exact ⟨hmain, fun r => by simp [hmain]⟩

/-- Witness for C8: a task-processing function that always raises. -/
theorem worker_task_failure_C8_witness :
    run_worker_loop (fun _ _ => Except.error (PyError.taskError "boom"))
      ([{ recvReady := true, task := { filename := "b.root", cut := { tag := 0 } },
          ctrlReady := false, ctrlPayload := "" }] : List Round) =
      ([WorkerEvent.recvTask { filename := "b.root", cut := { tag := 0 } }],
       LoopOutcome.raised (PyError.taskError "boom")) :=
  (worker_task_failure_C8 (fun _ _ => Except.error (PyError.taskError "boom"))
    { recvReady := true, task := { filename := "b.root", cut := { tag := 0 } },
      ctrlReady := false, ctrlPayload := "" } [] (PyError.taskError "boom")
    rfl rfl).1

/-- C9: the orchestrator's end-of-run test is `o == None`, so a worker
result that compares equal to `None` is indistinguishable from the
sentinel: if the arrival stream is `pre ++ bad :: post` with every element
of `pre` not `None`-like and `bad` `None`-like, the orchestrator stops at
`bad` and returns only `pre`, strictly fewer objects than were delivered. -/
theorem none_like_result_C9 (pre post : List PyObj) (bad : PyObj)
    (hpre : ∀ o ∈ pre, o.eqNone = false) (hbad : bad.eqNone = true) :
    convert_events_parallel_collect false (pre ++ bad :: post) =
      some (some pre, pre) ∧
    pre.length < (pre ++ bad :: post).length := by
  have hloop : ∀ pre' : List PyObj, (∀ o ∈ pre', o.eqNone = false) →
      collectLoop (pre' ++ bad :: post) = (pre', true) := by
    intro pre'
    induction pre' with
    | nil => intro _; simp [collectLoop, hbad]
    | cons o pre' ih =>
        intro hp
        have ho : o.eqNone = false := hp o (by simp)
        simp [collectLoop, ho, ih (fun o' ho' => hp o' (by simp [ho']))]
  refine ⟨?_, ?_⟩
  · simp [convert_events_parallel_collect, hloop pre hpre]
  · simp only [List.length_append, List.length_cons]
    omega

/-- Witness for C9: the second delivered result compares equal to `None`
(tag 7), so of the three delivered results only the first is returned. -/
theorem none_like_result_C9_witness :
    convert_events_parallel_collect false
        ([{ eqNone := false, tag := 1 }] ++ { eqNone := true, tag := 7 } ::
          [{ eqNone := false, tag := 2 }, pyNone]) =
      some (some [{ eqNone := false, tag := 1 }],
            [{ eqNone := false, tag := 1 }]) ∧
    ([{ eqNone := false, tag := 1 }] : List PyObj).length <
      (([{ eqNone := false, tag := 1 }] : List PyObj) ++
        { eqNone := true, tag := 7 } ::
          [{ eqNone := false, tag := 2 }, pyNone]).length :=
  none_like_result_C9 [{ eqNone := false, tag := 1 }]
    [{ eqNone := false, tag := 2 }, pyNone] { eqNone := true, tag := 7 }
    (by decide) rfl

/-- C10: in a poll round in which both a task and a control message are
ready and the task-processing function succeeds, the worker first receives
the task and pushes its result, and only then exits on the control
message: the delivered task is never dropped unprocessed. -/
theorem worker_same_round_order_C10 (f : String → Cut → Except PyError PyObj)
    (rd : Round) (rest : List Round) (r : PyObj)
    (h1 : rd.recvReady = true) (h2 : rd.ctrlReady = true)
    (h3 : f rd.task.filename rd.task.cut = Except.ok r) :
    run_worker_loop f (rd :: rest) =
      ([WorkerEvent.recvTask rd.task, WorkerEvent.sendResult r,
        WorkerEvent.exitOnControl], LoopOutcome.exited) := by
  simp [run_worker_loop, h1, h2, h3]

/-- Witness for C10: both sockets ready in the same round. -/
theorem worker_same_round_order_C10_witness :
    run_worker_loop (fun _ _ => Except.ok { eqNone := false, tag := 9 })
      ([{ recvReady := true, task := { filename := "c.root", cut := { tag := 3 } },
          ctrlReady := true, ctrlPayload := "KILL" }] : List Round) =
      ([WorkerEvent.recvTask { filename := "c.root", cut := { tag := 3 } },
        WorkerEvent.sendResult { eqNone := false, tag := 9 },
        WorkerEvent.exitOnControl], LoopOutcome.exited) :=
  worker_same_round_order_C10
    (fun _ _ => Except.ok { eqNone := false, tag := 9 })
    { recvReady := true, task := { filename := "c.root", cut := { tag := 3 } },
      ctrlReady := true, ctrlPayload := "KILL" } []
    { eqNone := false, tag := 9 } rfl rfl rfl

end Lxid
